import Mathlib

/-
Verification of borisd9/chrome-extension-bfc.

Shallow embedding of the three source files:
  packages/storage/lib/impl/bi-events-storage.ts  (mapping store)
  pages/popup/src/Popup.tsx                       (locator builder, resolver,
                                                   selection session, panel)
  chrome-extension/src/background/index.ts        (message relay)

JavaScript strings become `String`, `null`/`undefined`-able values become
`Option`, `Date.now()` becomes an explicit `now : Nat` argument, thrown DOM
exceptions become `Except`, and the live DOM is modelled by explicit element
records and query functions.
-/

/-- Mirrors the `ElementSelector` interface of `bi-events-storage.ts`:
`selector`, `xpath`, `tagName` are required strings, the rest are optional. -/
structure ElementSelector where
  selector : String
  xpath : String
  tagName : String
  className : Option String := none
  id : Option String := none
  dataHook : Option String := none
  text : Option String := none
  deriving DecidableEq

/-- Mirrors the `EventMapping` interface of `bi-events-storage.ts`; the
`timestamp` field holds the `Date.now()` value recorded at insertion. -/
structure EventMapping where
  eventId : String
  element : ElementSelector
  url : String
  timestamp : Nat
  deriving DecidableEq

/-- Mirrors the `BIEvent` interface of `bi-events-storage.ts`; the
`staticProperties` object is modelled as an association list. -/
structure BIEvent where
  evid : String
  description : String
  trigger : String
  staticProperties : List (String × String) := []
  deriving DecidableEq

/-- Mirrors the `BIEventsState` interface of `bi-events-storage.ts`: the whole
persisted aggregate. -/
structure BIEventsState where
  events : List BIEvent
  mappings : List EventMapping
  selectedEventId : Option String
  isSelecting : Bool
  deriving DecidableEq

/-- The `defaultEvents` seed list of `bi-events-storage.ts`. -/
def defaultEvents : List BIEvent :=
  [ { evid := "button_click", trigger := "click",
      description := "Track button clicks and CTA interactions",
      staticProperties := [("event_category", "user_action"), ("element_type", "button")] },
    { evid := "form_submit", trigger := "submit",
      description := "Track form submissions and conversions",
      staticProperties := [("event_category", "conversion"), ("element_type", "form")] },
    { evid := "link_click", trigger := "click",
      description := "Track internal and external link clicks",
      staticProperties := [("event_category", "user_action"), ("element_type", "link")] },
    { evid := "page_scroll", trigger := "scroll",
      description := "Track user scroll behavior and engagement",
      staticProperties := [("event_category", "engagement"), ("element_type", "window")] },
    { evid := "video_play", trigger := "play",
      description := "Track video player interactions",
      staticProperties := [("event_category", "engagement"), ("element_type", "video")] },
    { evid := "file_download", trigger := "click",
      description := "Track file downloads and document access",
      staticProperties := [("event_category", "conversion"), ("element_type", "download_link")] },
    { evid := "search_query", trigger := "submit",
      description := "Track internal search usage",
      staticProperties := [("event_category", "user_action"), ("element_type", "search_form")] },
    { evid := "modal_open", trigger := "click",
      description := "Track modal and popup interactions",
      staticProperties := [("event_category", "engagement"), ("element_type", "modal_trigger")] } ]

/-- The default aggregate passed to `createStorage` in `bi-events-storage.ts`. -/
def defaultState : BIEventsState :=
  { events := defaultEvents
    mappings := []
    selectedEventId := none
    isSelecting := false }

/-- Mirrors `biEventsStorage.selectEvent`: stores the given id and sets
`isSelecting` to `eventId !== null`. -/
def selectEvent (eventId : Option String) (s : BIEventsState) : BIEventsState :=
  { s with selectedEventId := eventId, isSelecting := eventId.isSome }

/-- The duplicate test used by the `find` call inside
`biEventsStorage.addMapping`: identical eventId, url, `element.selector` and
`element.xpath`. -/
def mappingMatches (eventId : String) (element : ElementSelector) (url : String)
    (m : EventMapping) : Bool :=
  m.eventId == eventId && m.url == url &&
    m.element.selector == element.selector && m.element.xpath == element.xpath

/-- Mirrors `biEventsStorage.addMapping` (with `Date.now()` as `now`): when a
duplicate exists only the selection state clears; otherwise a new record is
appended and the selection state clears. -/
def addMapping (eventId : String) (element : ElementSelector) (url : String)
    (now : Nat) (s : BIEventsState) : BIEventsState :=
  match s.mappings.find? (mappingMatches eventId element url) with
  | some _ => { s with selectedEventId := none, isSelecting := false }
  | none =>
      { s with
          mappings := s.mappings ++
            [{ eventId := eventId, element := element, url := url, timestamp := now }]
          selectedEventId := none
          isSelecting := false }

/-- Mirrors `biEventsStorage.removeMapping`, which is declared with exactly two
parameters `(eventId, url)` and filters the mapping list on those two fields
only. -/
def removeMapping (eventId : String) (url : String) (s : BIEventsState) : BIEventsState :=
  { s with
      mappings := s.mappings.filter (fun m => !(m.eventId == eventId && m.url == url)) }

/-- Mirrors `biEventsStorage.cancelSelection`: unconditionally clears the
selection state. -/
def cancelSelection (s : BIEventsState) : BIEventsState :=
  { s with selectedEventId := none, isSelecting := false }

/-- Mirrors `handleRemoveMapping` in `Popup.tsx`, which calls
`biEventsStorage.removeMapping(eventId, currentUrl, elementSelector)`; since
`removeMapping` is declared with only `(eventId, url)` parameters, the third
argument has no corresponding parameter and does not influence the result. -/
def handleRemoveMapping (eventId : String) (currentUrl : String)
    (elementSelector : Option String) (s : BIEventsState) : BIEventsState :=
  removeMapping eventId currentUrl s

/-- The four mutating store operations exposed by `biEventsStorage`, as one
syntactic type so that reachability from the default state can be stated. -/
inductive StoreOp where
  | selectOp (eventId : Option String)
  | addOp (eventId : String) (element : ElementSelector) (url : String) (now : Nat)
  | removeOp (eventId : String) (url : String)
  | cancelOp
  deriving DecidableEq

/-- Applies one store operation to the aggregate. -/
def applyOp (s : BIEventsState) (op : StoreOp) : BIEventsState :=
  match op with
  | StoreOp.selectOp eventId => selectEvent eventId s
  | StoreOp.addOp eventId element url now => addMapping eventId element url now s
  | StoreOp.removeOp eventId url => removeMapping eventId url s
  | StoreOp.cancelOp => cancelSelection s

/-- Runs a sequence of store operations from a starting aggregate. -/
def runOps (s : BIEventsState) (ops : List StoreOp) : BIEventsState :=
  ops.foldl applyOp s

/-- The selection-state invariant claimed by the spec:
`isSelecting == (selectedEventId != null)`. -/
def selectionInvariant (s : BIEventsState) : Prop :=
  s.isSelecting = s.selectedEventId.isSome

/-- JavaScript truthiness of an optional attribute string: `null` / missing and
the empty string are falsy, every other string is truthy. -/
def optTruthy (o : Option String) : Bool :=
  match o with
  | none => false
  | some s => s != ""

/-- Character-level model of JavaScript `String.prototype.trim`: drop leading
and trailing whitespace. -/
def trimChars (l : List Char) : List Char :=
  ((l.dropWhile Char.isWhitespace).reverse.dropWhile Char.isWhitespace).reverse

/-- JavaScript `trim()` on a string. -/
def jsTrim (s : String) : String :=
  String.mk (trimChars s.data)

/-- JavaScript `toLowerCase()` on a string (ASCII, which covers DOM tag
names). -/
def jsToLower (s : String) : String :=
  String.mk (s.data.map Char.toLower)

/-- Splits a character list at every character satisfying `p`; separators are
consumed and empty pieces are kept, matching JavaScript `split` with a
single-character separator. -/
def splitPred (p : Char → Bool) : List Char → List (List Char)
  | [] => [[]]
  | c :: rest =>
      let r := splitPred p rest
      if p c then [] :: r
      else
        match r with
        | [] => [[c]]
        | h :: t => (c :: h) :: t

/-- JavaScript `split(' ')` (single-space separator, empty pieces kept). -/
def jsSplitOnSpace (s : String) : List String :=
  (splitPred (fun c => c == ' ') s.data).map String.mk

/-- Whether `pat` is a prefix of `l`, on character lists. -/
def segPrefix (pat l : List Char) : Bool :=
  match pat, l with
  | [], _ => true
  | _ :: _, [] => false
  | p :: ps, c :: cs => p == c && segPrefix ps cs

/-- Whether `pat` occurs contiguously inside `l`, on character lists. -/
def containsSeg (l pat : List Char) : Bool :=
  match l with
  | [] => segPrefix pat []
  | _ :: rest => segPrefix pat l || containsSeg rest pat

/-- JavaScript `String.prototype.includes`. -/
def strIncludes (s pat : String) : Bool :=
  containsSeg s.data pat.data

/-- JavaScript `split(/\s+/)` applied to an already-trimmed string: runs of
whitespace separate tokens and contribute no empty tokens. -/
def splitWhitespaceRuns (s : String) : List String :=
  ((splitPred Char.isWhitespace s.data).filter (fun t => t ≠ [])).map String.mk

/-- A DOM element as observed by the injected code in `Popup.tsx`: `tagName`
as the DOM reports it (uppercase), `id` and `className` empty strings when
absent (DOM behaviour), `dataHook` the `getAttribute('data-hook')` result
(`none` when the attribute is missing), `textContent` the raw text, and
`area` the `getBoundingClientRect()` width times height as an exact
rational. -/
structure DomElem where
  tagName : String
  id : String := ""
  className : String := ""
  dataHook : Option String := none
  textContent : String := ""
  area : ℚ := 0
  deriving DecidableEq

/-- The `selector` field computed by `getElementSelector` in `Popup.tsx`
(the locator's primary selector): lowercased tag, then `#id`, else
`[data-hook="…"]`, else a dot-joined list of ALL the class tokens produced by
`className.trim().split(' ')` (single-space split, no length cap). -/
def primarySelector (e : DomElem) : String :=
  let tagName := jsToLower e.tagName
  let className := jsTrim e.className
  if e.id ≠ "" then tagName ++ "#" ++ e.id
  else if optTruthy e.dataHook then
    tagName ++ "[data-hook=\"" ++ e.dataHook.getD "" ++ "\"]"
  else if className ≠ "" then
    tagName ++ "." ++ String.intercalate "." (jsSplitOnSpace className)
  else tagName

/-- One `pathPart` of `getFullPathWithDataHooks` in `Popup.tsx`: identifier
priority id over data-hook over classes, where the class branch uses
`split(/\s+/).slice(0, 2)` — at most the first two tokens. -/
def pathPart (e : DomElem) : String :=
  let tag := jsToLower e.tagName
  if e.id ≠ "" then tag ++ "#" ++ e.id
  else if optTruthy e.dataHook then
    tag ++ "[data-hook=\"" ++ e.dataHook.getD "" ++ "\"]"
  else if jsTrim e.className ≠ "" then
    tag ++ "." ++ String.intercalate "." ((splitWhitespaceRuns (jsTrim e.className)).take 2)
  else tag

/-- Mirrors `getFullPathWithDataHooks`: the per-element parts for the chain
from the document root down to the target, joined with " > ". -/
def getFullPathWithDataHooks (rootToTarget : List DomElem) : String :=
  String.intercalate " > " (rootToTarget.map pathPart)

/-- The ancestor-chain view consumed by `getXPath` in `Popup.tsx`: for each
element on the upward walk, its uppercase `tagName`, its `id`, and the
`tagName`s of its preceding element siblings. -/
structure XPathNode where
  tagName : String
  id : String := ""
  prevSiblingTags : List String := []
  deriving DecidableEq

/-- The 1-based index computed by the inner sibling loop of `getXPath`: one
plus the number of preceding element siblings sharing the element's
`tagName`. -/
def siblingIndex (tag : String) (prevTags : List String) : Nat :=
  1 + (prevTags.filter (fun t => t == tag)).length

/-- The `path` string accumulated by `getXPath`'s outer loop over the chain
running from the element itself up to, but excluding,
`document.documentElement`; each iteration prepends its own step, so the
result reads root-to-leaf. -/
def xpathBody (chain : List XPathNode) : String :=
  match chain with
  | [] => ""
  | el :: rest =>
      xpathBody rest ++ "/" ++ jsToLower el.tagName ++ "[" ++
        toString (siblingIndex el.tagName el.prevSiblingTags) ++ "]"

/-- Mirrors `getXPath` in `Popup.tsx`: an element with an id short-circuits to
`//*[@id="…"]`; otherwise the result is `/html` followed by the indexed
steps. `chain` is the upward walk starting at the element itself and
stopping before the document element (empty when the element is the document
element). -/
def getXPath (el : XPathNode) (chain : List XPathNode) : String :=
  if el.id ≠ "" then "//*[@id=\"" ++ el.id ++ "\"]"
  else "/html" ++ xpathBody chain

/-- The container-naming test inside `getTargetElement` in `Popup.tsx`: a
truthy `className` containing one of the six convention substrings. -/
def looksLikeContainer (className : String) : Bool :=
  className != "" &&
    (strIncludes className "Card__" || strIncludes className "Container__" ||
     strIncludes className "Wrapper__" || strIncludes className "__card" ||
     strIncludes className "__wrapper" || strIncludes className "__container")

/-- The candidate-widening loop of `getTargetElement` (modifier key held).
`ancestors` is the `parentElement` chain of the hovered element, nearest
first, up to but excluding `document.body`. A `data-hook` attribute or a
container-convention class returns that ancestor immediately (`break`); the
area test `areaDiff > 2` updates the candidate and keeps walking. The source
computes `areaDiff` as the float quotient of the two areas; over non-negative
exact areas the comparison `areaDiff > 2` coincides with
`2 * element.area < current.area` (including the degenerate zero-area cases,
where the float quotient is `Infinity`, respectively `NaN`). -/
def widenLoop (element : DomElem) (best : DomElem) (ancestors : List DomElem) : DomElem :=
  match ancestors with
  | [] => best
  | current :: rest =>
      if current.dataHook.isSome then current
      else if looksLikeContainer current.className then current
      else if 2 * element.area < current.area then widenLoop element current rest
      else widenLoop element best rest

/-- What `document.elementFromPoint` resolved to at the click/hover point:
nothing, one of the session's own infrastructure elements (the overlay, the
instructions banner, or the current highlight), or a page element together
with its ancestor chain up to but excluding `document.body`. -/
inductive HitResult where
  | noElement
  | overlayHit
  | bannerHit
  | highlightHit
  | pageElem (e : DomElem) (ancestors : List DomElem)
  deriving DecidableEq

/-- Mirrors `getTargetElement` in `startElementSelection`: a null
`elementFromPoint` result or a hit on the overlay, banner, or current
highlight yields null; otherwise the element itself, widened by `widenLoop`
when the modifier key is held. -/
def getTargetElement (hit : HitResult) (useModifier : Bool) : Option DomElem :=
  match hit with
  | HitResult.noElement => none
  | HitResult.overlayHit => none
  | HitResult.bannerHit => none
  | HitResult.highlightHit => none
  | HitResult.pageElem e ancestors =>
      if useModifier then some (widenLoop e e ancestors) else some e

/-- Specification-side restatement of the widening walk used to state claim
C3's amended form: the nearest ancestor carrying `data-hook` or a
container-convention class wins outright; failing that, the farthest walked
ancestor whose area strictly exceeds double the hovered element's area;
failing that, the hovered element itself. -/
def specWiden (element : DomElem) (ancestors : List DomElem) : DomElem :=
  match ancestors.find? (fun c => c.dataHook.isSome || looksLikeContainer c.className) with
  | some c => c
  | none =>
      ((ancestors.filter (fun c => decide (2 * element.area < c.area))).getLast?).getD element

/-- The transient in-page session state relevant at the session interface:
the `isSelecting` flag of `startElementSelection`. -/
structure SessionState where
  isSelecting : Bool
  deriving DecidableEq

/-- The two cross-context messages a session can emit. -/
inductive SessionMsg where
  | elementSelected (eventId : String) (element : DomElem) (url : String)
  | selectionCancelled
  deriving DecidableEq

/-- Mirrors `handleClick` in `startElementSelection` at the session
interface: a non-selecting session ignores the click; an armed session with a
non-null target emits `ELEMENT_SELECTED` (built from the target element) and
tears itself down; a null target — including a hit on the session's own
overlay, banner, or highlight — emits nothing and leaves the session as it
was. -/
def handleClick (eventId : String) (url : String) (st : SessionState)
    (hit : HitResult) (modifierPressed : Bool) : SessionState × List SessionMsg :=
  if st.isSelecting then
    match getTargetElement hit modifierPressed with
    | some e => ({ isSelecting := false }, [SessionMsg.elementSelected eventId e url])
    | none => (st, [])
  else (st, [])

/-- The DOM querying capabilities used by `highlightElement` in `Popup.tsx`:
elements are abstract handles (`Nat`); `querySelector` and XPath
`document.evaluate` may throw on a malformed input, modelled by `Except`. -/
structure PageDoc where
  getElementById : String → Option Nat
  querySelector : String → Except String (Option Nat)
  evaluateXPath : String → Except String (Option Nat)

/-- One `try { … } catch { console.warn(…) }` block of `highlightElement`: a
thrown error is swallowed and leaves `targetElement` null. -/
def catchMiss (r : Except String (Option Nat)) : Option Nat :=
  match r with
  | Except.ok v => v
  | Except.error _ => none

/-- Strategy 1 of `highlightElement`: `document.getElementById`, guarded by
`if (elementSelector.id)`. -/
def idStrategy (doc : PageDoc) (es : ElementSelector) : Option Nat :=
  if optTruthy es.id then doc.getElementById (es.id.getD "") else none

/-- Strategy 2 of `highlightElement`: `querySelector('[data-hook="…"]')`
inside try/catch, guarded by `if (!targetElement && elementSelector.dataHook)`. -/
def dataHookStrategy (doc : PageDoc) (es : ElementSelector) : Option Nat :=
  if optTruthy es.dataHook then
    catchMiss (doc.querySelector ("[data-hook=\"" ++ es.dataHook.getD "" ++ "\"]"))
  else none

/-- Strategy 3 of `highlightElement`: `querySelector(elementSelector.selector)`
inside try/catch, guarded by `if (!targetElement && elementSelector.selector)`. -/
def cssStrategy (doc : PageDoc) (es : ElementSelector) : Option Nat :=
  if es.selector ≠ "" then catchMiss (doc.querySelector es.selector) else none

/-- Strategy 4 of `highlightElement`: XPath `document.evaluate` inside
try/catch, guarded by `if (!targetElement && elementSelector.xpath)`. -/
def xpathStrategy (doc : PageDoc) (es : ElementSelector) : Option Nat :=
  if es.xpath ≠ "" then catchMiss (doc.evaluateXPath es.xpath) else none

/-- The sequential strategy chain of `highlightElement`: each later strategy
runs only under its `if (!targetElement && …)` guard. -/
def resolveTarget (doc : PageDoc) (es : ElementSelector) : Option Nat :=
  match idStrategy doc es with
  | some e => some e
  | none =>
      match dataHookStrategy doc es with
      | some e => some e
      | none =>
          match cssStrategy doc es with
          | some e => some e
          | none => xpathStrategy doc es

/-- The observable outcome of `highlightElement`. -/
inductive ResolveResult where
  | found (el : Nat)
  | notFoundBanner
  deriving DecidableEq

/-- The tail of `highlightElement`: a null `targetElement` after all four
strategies shows the transient "Element not found on current page" banner and
returns normally; otherwise the found element is highlighted. -/
def highlightResolve (doc : PageDoc) (es : ElementSelector) : ResolveResult :=
  match resolveTarget doc es with
  | some e => ResolveResult.found e
  | none => ResolveResult.notFoundBanner

/-
Concrete instances used by the counterexamples and witnesses below.
-/

/-- A stored mapping whose locator's primary selector is `button#a`. -/
def mappingA : EventMapping :=
  { eventId := "button_click"
    element := { selector := "button#a", xpath := "/html/body[1]/button[1]", tagName := "button" }
    url := "https://example.com/"
    timestamp := 1 }

/-- A stored mapping for the same event and url whose locator's primary
selector is `button#b`. -/
def mappingB : EventMapping :=
  { eventId := "button_click"
    element := { selector := "button#b", xpath := "/html/body[1]/button[2]", tagName := "button" }
    url := "https://example.com/"
    timestamp := 2 }

/-- A store aggregate holding both mappings above. -/
def removeInputState : BIEventsState :=
  { events := defaultEvents
    mappings := [mappingA, mappingB]
    selectedEventId := none
    isSelecting := false }

/-- An element with no id, no data-hook, and three class tokens. -/
def elemThreeClasses : DomElem :=
  { tagName := "DIV", className := "a b c" }

/-- A hovered element of area 10. -/
def hoveredElem : DomElem :=
  { tagName := "SPAN", area := 10 }

/-- The hovered element's direct parent: no data-hook, a non-convention class,
and area 30, which is at least (indeed strictly more than) double of 10. -/
def largeParent : DomElem :=
  { tagName := "DIV", className := "x", area := 30 }

/-- The grandparent: carries a data-hook. -/
def hookedAncestor : DomElem :=
  { tagName := "SECTION", dataHook := some "h", area := 5 }

/-- A locator whose id, data-hook, and CSS strategies will all miss. -/
def probeSelector : ElementSelector :=
  { selector := "div.a"
    xpath := "/html/body[1]/div[1]"
    tagName := "div"
    id := some "missing"
    dataHook := some "hook" }

/-- A document where id lookup misses, `querySelector` always throws, and
XPath evaluation finds element 7. -/
def xpathOnlyDoc : PageDoc :=
  { getElementById := fun _ => none
    querySelector := fun _ => Except.error "SyntaxError"
    evaluateXPath := fun _ => Except.ok (some 7) }

/-- A document where id lookup misses and both `querySelector` and XPath
evaluation throw. -/
def allFailDoc : PageDoc :=
  { getElementById := fun _ => none
    querySelector := fun _ => Except.error "SyntaxError"
    evaluateXPath := fun _ => Except.error "SyntaxError" }

/-- The chain node for a `<button id="cta">`. -/
def ctaNode : XPathNode :=
  { tagName := "BUTTON", id := "cta" }

/-- A `<body>` chain node with no preceding siblings. -/
def bodyNode : XPathNode :=
  { tagName := "BODY" }

/-- A `<div>` chain node with one preceding `DIV` sibling and one preceding
`SPAN` sibling, hence sibling index 2. -/
def plainDivNode : XPathNode :=
  { tagName := "DIV", prevSiblingTags := ["DIV", "SPAN"] }

/-
Theorems.
-/

/-- Helper: every store operation preserves the selection-state invariant. -/
theorem applyOp_preserves_selectionInvariant (s : BIEventsState) (op : StoreOp)
    (h : selectionInvariant s) : selectionInvariant (applyOp s op) := by
  cases op with
  | selectOp eventId =>
      simp [applyOp, selectEvent, selectionInvariant]
  | addOp eventId element url now =>
      simp only [applyOp, addMapping, selectionInvariant]
      split <;> rfl
  | removeOp eventId url =>
      simpa [applyOp, removeMapping, selectionInvariant] using h
  | cancelOp =>
      simp [applyOp, cancelSelection, selectionInvariant]

/-- Helper: the invariant is preserved along any operation sequence. -/
theorem runOps_preserves_selectionInvariant (ops : List StoreOp) :
    ∀ s : BIEventsState, selectionInvariant s → selectionInvariant (runOps s ops) := by
  induction ops with
  | nil =>
      intro s h
      simpa [runOps] using h
  | cons op rest ih =>
      intro s h
      simpa [runOps, List.foldl_cons] using
        ih (applyOp s op) (applyOp_preserves_selectionInvariant s op h)

/-- C5: the invariant `isSelecting == (selectedEventId != null)` holds in the
default store state, is preserved by every store operation (`selectEvent`,
`addMapping`, `removeMapping`, `cancelSelection`), and hence holds in every
state reachable from the default state via these operations. -/
theorem selection_invariant_holds :
    selectionInvariant defaultState ∧
    (∀ (s : BIEventsState) (op : StoreOp),
      selectionInvariant s → selectionInvariant (applyOp s op)) ∧
    (∀ ops : List StoreOp, selectionInvariant (runOps defaultState ops)) := by
  refine ⟨rfl, applyOp_preserves_selectionInvariant, fun ops => ?_⟩
  exact runOps_preserves_selectionInvariant ops defaultState rfl

/-- Witness for C5: the invariant is preserved at a concrete state and
operation. -/
theorem selection_invariant_holds_witness :
    selectionInvariant (applyOp defaultState StoreOp.cancelOp) :=
  selection_invariant_holds.2.1 defaultState StoreOp.cancelOp rfl

/-- C9: `removeMapping` changes only the `mappings` field of the persisted
aggregate; the events catalog, `selectedEventId`, and `isSelecting` are
exactly the same after the call as before it. -/
theorem removeMapping_frame (s : BIEventsState) (eventId url : String) :
    (removeMapping eventId url s).events = s.events ∧
    (removeMapping eventId url s).selectedEventId = s.selectedEventId ∧
    (removeMapping eventId url s).isSelecting = s.isSelecting :=
  ⟨rfl, rfl, rfl⟩

/-- C1 (code bug): `removeMapping` is declared with only `(eventId, url)`
parameters, so the primary selector supplied by `handleRemoveMapping` is
dropped and ALL records of the pair are deleted: here the caller passes
primary selector `button#a`, yet the record whose primary selector is
`button#b` is deleted too, contradicting the claimed finer-grained removal. -/
theorem handleRemoveMapping_ignores_selector :
    mappingB.element.selector ≠ "button#a" ∧
    (handleRemoveMapping "button_click" "https://example.com/" (some "button#a")
        removeInputState).mappings = [] := by
  exact ⟨by decide, rfl⟩

/-- Helper: the record built by `addMapping` satisfies its own duplicate
test. -/
theorem mappingMatches_self (eventId : String) (element : ElementSelector)
    (url : String) (now : Nat) :
    mappingMatches eventId element url
      { eventId := eventId, element := element, url := url, timestamp := now } = true := by
  simp [mappingMatches]

/-- Helper: when the duplicate search succeeds, `addMapping` only clears the
selection state. -/
theorem addMapping_found (eventId : String) (element : ElementSelector)
    (url : String) (now : Nat) (s : BIEventsState) (m : EventMapping)
    (hm : s.mappings.find? (mappingMatches eventId element url) = some m) :
    addMapping eventId element url now s =
      { s with selectedEventId := none, isSelecting := false } := by
  simp [addMapping, hm]

/-- C4: `addMapping` is an idempotent dedup-upsert. If a mapping with
identical (eventId, url, primary selector, xpath) exists, the collection is
unchanged while the selection state still resets to `(null, false)`;
otherwise exactly one record stamped with the current time is appended and
the selection state resets; consequently two identical calls starting from a
state without the mapping leave exactly one matching record. -/
theorem addMapping_dedup_upsert (s : BIEventsState) (eventId : String)
    (element : ElementSelector) (url : String) (now now2 : Nat) :
    ((∃ m ∈ s.mappings, mappingMatches eventId element url m = true) →
      (addMapping eventId element url now s).mappings = s.mappings ∧
      (addMapping eventId element url now s).selectedEventId = none ∧
      (addMapping eventId element url now s).isSelecting = false) ∧
    ((∀ m ∈ s.mappings, mappingMatches eventId element url m = false) →
      (addMapping eventId element url now s).mappings =
        s.mappings ++
          [{ eventId := eventId, element := element, url := url, timestamp := now }] ∧
      (addMapping eventId element url now s).selectedEventId = none ∧
      (addMapping eventId element url now s).isSelecting = false) ∧
    ((∀ m ∈ s.mappings, mappingMatches eventId element url m = false) →
      ((addMapping eventId element url now2
          (addMapping eventId element url now s)).mappings.filter
          (mappingMatches eventId element url)).length = 1) := by
  refine ⟨?_, ?_, ?_⟩
  · rintro ⟨m, hm, hpm⟩
    have hsome : (s.mappings.find? (mappingMatches eventId element url)).isSome = true :=
      List.find?_isSome.mpr ⟨m, hm, hpm⟩
    obtain ⟨m', hm'⟩ := Option.isSome_iff_exists.mp hsome
    refine ⟨?_, ?_, ?_⟩ <;> simp [addMapping, hm']
  · intro h
    have hnone : s.mappings.find? (mappingMatches eventId element url) = none :=
      List.find?_eq_none.mpr (fun x hx => by simp [h x hx])
    refine ⟨?_, ?_, ?_⟩ <;> simp [addMapping, hnone]
  · intro h
    have hnone : s.mappings.find? (mappingMatches eventId element url) = none :=
      List.find?_eq_none.mpr (fun x hx => by simp [h x hx])
    have h1 : (addMapping eventId element url now s).mappings =
        s.mappings ++
          [{ eventId := eventId, element := element, url := url, timestamp := now }] := by
      simp [addMapping, hnone]
    have hfind2 : ((addMapping eventId element url now s).mappings.find?
        (mappingMatches eventId element url)) =
        some { eventId := eventId, element := element, url := url, timestamp := now } := by
      rw [h1, List.find?_append, hnone]
      simp [List.find?, mappingMatches_self]
    have h2 : (addMapping eventId element url now2
        (addMapping eventId element url now s)).mappings =
        (addMapping eventId element url now s).mappings := by
      rw [addMapping_found eventId element url now2 _ _ hfind2]
    rw [h2, h1, List.filter_append]
    have hfilter1 : s.mappings.filter (mappingMatches eventId element url) = [] :=
      List.filter_eq_nil_iff.mpr (fun a ha => by simp [h a ha])
    rw [hfilter1]
    simp [List.filter, mappingMatches_self]

/-- Witness for C4: two identical `addMapping` calls from the default state
leave exactly one matching record. -/
theorem addMapping_dedup_upsert_witness :
    ((addMapping "button_click" probeSelector "https://example.com/" 5
        (addMapping "button_click" probeSelector "https://example.com/" 3
          defaultState)).mappings.filter
        (mappingMatches "button_click" probeSelector "https://example.com/")).length = 1 :=
  (addMapping_dedup_upsert defaultState "button_click" probeSelector
      "https://example.com/" 3 5).2.2
    (fun m hm => absurd hm (by simp [defaultState]))

/-- C6: the resolver attempts id lookup, data-attribute query, primary CSS
selector, and XPath evaluation in that fixed order and returns the first
strategy result that is non-null; in particular when the first three
strategies miss and XPath matches, the XPath match is returned. -/
theorem resolver_strategy_order (doc : PageDoc) (es : ElementSelector) :
    resolveTarget doc es =
      ([idStrategy doc es, dataHookStrategy doc es, cssStrategy doc es,
        xpathStrategy doc es].findSome? (fun r => r)) ∧
    (idStrategy doc es = none → dataHookStrategy doc es = none →
      cssStrategy doc es = none → ∀ e, xpathStrategy doc es = some e →
        highlightResolve doc es = ResolveResult.found e) := by
  constructor
  · unfold resolveTarget
    cases idStrategy doc es <;> cases dataHookStrategy doc es <;>
      cases cssStrategy doc es <;> cases xpathStrategy doc es <;>
        simp [List.findSome?]
  · intro h1 h2 h3 e h4
    simp [highlightResolve, resolveTarget, h1, h2, h3, h4]

/-- Witness for C6: a document on which id, data-hook, and CSS all miss (the
CSS query even throws) while XPath finds element 7. -/
theorem resolver_strategy_order_witness :
    highlightResolve xpathOnlyDoc probeSelector = ResolveResult.found 7 :=
  (resolver_strategy_order xpathOnlyDoc probeSelector).2 rfl rfl rfl 7 rfl

/-- C7: a throwing `querySelector` or XPath evaluation is caught and treated
as a miss (so later strategies still run), and when every strategy misses the
resolver shows the "element not found" banner and returns normally instead of
propagating an exception. -/
theorem resolver_catches_malformed (doc : PageDoc) (es : ElementSelector) :
    (∀ msg, doc.querySelector es.selector = Except.error msg →
      cssStrategy doc es = none) ∧
    (∀ msg, doc.evaluateXPath es.xpath = Except.error msg →
      xpathStrategy doc es = none) ∧
    (∀ msg e, doc.querySelector es.selector = Except.error msg →
      idStrategy doc es = none → dataHookStrategy doc es = none →
      xpathStrategy doc es = some e →
        highlightResolve doc es = ResolveResult.found e) ∧
    (idStrategy doc es = none → dataHookStrategy doc es = none →
      cssStrategy doc es = none → xpathStrategy doc es = none →
        highlightResolve doc es = ResolveResult.notFoundBanner) := by
  refine ⟨?_, ?_, ?_, ?_⟩
  · intro msg hmsg
    unfold cssStrategy
    split
    · rw [hmsg]; rfl
    · rfl
  · intro msg hmsg
    unfold xpathStrategy
    split
    · rw [hmsg]; rfl
    · rfl
  · intro msg e hmsg h1 h2 h4
    have h3 : cssStrategy doc es = none := by
      unfold cssStrategy
      split
      · rw [hmsg]; rfl
      · rfl
    simp [highlightResolve, resolveTarget, h1, h2, h3, h4]
  · intro h1 h2 h3 h4
    simp [highlightResolve, resolveTarget, h1, h2, h3, h4]

/-- Witness for C7: a document on which the id lookup misses and both
`querySelector` and XPath evaluation throw yields the not-found banner. -/
theorem resolver_catches_malformed_witness :
    highlightResolve allFailDoc probeSelector = ResolveResult.notFoundBanner :=
  (resolver_catches_malformed allFailDoc probeSelector).2.2.2 rfl rfl rfl rfl

/-- Helper: `String.join` distributes over appending one string. -/
theorem join_append_singleton (l : List String) (a : String) :
    String.join (l ++ [a]) = String.join l ++ a := by
  simp [String.join, List.foldl_append]

/-- Helper: the loop of `getXPath` produces the root-to-leaf concatenation of
the per-element indexed steps. -/
theorem xpathBody_eq_join (chain : List XPathNode) :
    xpathBody chain = String.join (chain.reverse.map (fun n =>
      "/" ++ jsToLower n.tagName ++ "[" ++
        toString (siblingIndex n.tagName n.prevSiblingTags) ++ "]")) := by
  induction chain with
  | nil => rfl
  | cons el rest ih =>
      simp only [xpathBody, ih, List.reverse_cons, List.map_append, List.map_cons,
        List.map_nil]
      rw [join_append_singleton]
      simp [String.append_assoc]

/-- C8: the builder's xpath is `//*[@id="<id>"]` whenever the element has an
id; otherwise it is the absolute path `/html` followed by one step per
element of the upward walk (read root to leaf), each step carrying the
1-based index of the element among its preceding same-tag siblings. -/
theorem getXPath_spec (el : XPathNode) (chain : List XPathNode) :
    (el.id ≠ "" → getXPath el chain = "//*[@id=\"" ++ el.id ++ "\"]") ∧
    (el.id = "" → getXPath el chain =
      "/html" ++ String.join (chain.reverse.map (fun n =>
        "/" ++ jsToLower n.tagName ++ "[" ++
          toString (siblingIndex n.tagName n.prevSiblingTags) ++ "]"))) := by
  constructor
  · intro h
    simp [getXPath, h]
  · intro h
    simp [getXPath, h, xpathBody_eq_join]

/-- Witness for C8: the `<button id="cta">` example yields `//*[@id="cta"]`,
and an id-less `<div>` with one preceding same-tag sibling inside `<body>`
yields `/html/body[1]/div[2]`. -/
theorem getXPath_spec_witness :
    getXPath ctaNode [ctaNode] = "//*[@id=\"cta\"]" ∧
    getXPath plainDivNode [plainDivNode, bodyNode] = "/html/body[1]/div[2]" := by
  constructor
  · exact (getXPath_spec ctaNode [ctaNode]).1 (by decide)
  · rw [(getXPath_spec plainDivNode [plainDivNode, bodyNode]).2 rfl]
    decide

/-- C2 counterexample: an element with no id, no data-attribute, and three
class tokens yields the primary selector `div.a.b.c`, which contains all
three class tokens — not at most two as claimed. Splitting the produced
selector at the dots exhibits the three class tokens after the tag. -/
theorem primarySelector_three_classes_counterexample :
    elemThreeClasses.id = "" ∧ elemThreeClasses.dataHook = none ∧
    (jsSplitOnSpace (jsTrim elemThreeClasses.className)).length = 3 ∧
    (splitPred (fun c => c == '.') (primarySelector elemThreeClasses).data).map String.mk
      = ["div", "a", "b", "c"] := by
  decide

/-- C2 (amended): the primary selector is the lowercased tag name followed by
the first available of id, the stable data-attribute, or ALL of the class
tokens (single-space split of the trimmed `className`), in that priority
order; the at-most-two-class truncation applies only to the ancestor
full-path parts built by `getFullPathWithDataHooks`. -/
theorem primarySelector_spec (e : DomElem) :
    (e.id ≠ "" → primarySelector e = jsToLower e.tagName ++ "#" ++ e.id) ∧
    (e.id = "" → optTruthy e.dataHook = true →
      primarySelector e =
        jsToLower e.tagName ++ "[data-hook=\"" ++ e.dataHook.getD "" ++ "\"]") ∧
    (e.id = "" → optTruthy e.dataHook = false → jsTrim e.className ≠ "" →
      primarySelector e =
        jsToLower e.tagName ++ "." ++
          String.intercalate "." (jsSplitOnSpace (jsTrim e.className)) ∧
      pathPart e =
        jsToLower e.tagName ++ "." ++
          String.intercalate "." ((splitWhitespaceRuns (jsTrim e.className)).take 2)) ∧
    (e.id = "" → optTruthy e.dataHook = false → jsTrim e.className = "" →
      primarySelector e = jsToLower e.tagName) := by
  refine ⟨?_, ?_, ?_, ?_⟩
  · intro h
    simp [primarySelector, h]
  · intro h hhook
    simp [primarySelector, h, hhook]
  · intro h hhook hcls
    constructor
    · simp [primarySelector, h, hhook, hcls]
    · simp [pathPart, h, hhook, hcls]
  · intro h hhook hcls
    simp [primarySelector, h, hhook, hcls]

/-- Witness for C2's amended claim at the three-class element. -/
theorem primarySelector_spec_witness :
    primarySelector elemThreeClasses = "div.a.b.c" := by
  rw [((primarySelector_spec elemThreeClasses).2.2.1 rfl rfl (by decide)).1]
  decide

/-- Helper: the default of `getLast?` on a cons shifts onto the head. -/
theorem getLast?_getD_cons {α : Type _} (l : List α) :
    ∀ a d : α, ((a :: l).getLast?).getD d = (l.getLast?).getD a := by
  induction l with
  | nil => intro a d; rfl
  | cons b t ih =>
      intro a d
      rw [List.getLast?_cons_cons, ih b d, ih b a]

/-- Helper: the widening loop returns the first data-hook or convention-class
ancestor, and otherwise the last walked ancestor passing the strict area test,
defaulting to the accumulator. -/
theorem widenLoop_eq (element : DomElem) (ancestors : List DomElem) :
    ∀ best : DomElem,
      widenLoop element best ancestors =
        match ancestors.find?
            (fun c => c.dataHook.isSome || looksLikeContainer c.className) with
        | some c => c
        | none =>
            ((ancestors.filter
                (fun c => decide (2 * element.area < c.area))).getLast?).getD best := by
  induction ancestors with
  | nil => intro best; rfl
  | cons current rest ih =>
      intro best
      by_cases h1 : current.dataHook.isSome
      · rw [List.find?_cons_of_pos _ (by simp [h1])]
        simp [widenLoop, h1]
      · by_cases h2 : looksLikeContainer current.className
        · rw [List.find?_cons_of_pos _ (by simp [h2])]
          simp [widenLoop, h1, h2]
        · rw [List.find?_cons_of_neg _ (by simp [h1, h2])]
          by_cases h3 : 2 * element.area < current.area
          · have hstep : widenLoop element best (current :: rest) =
                widenLoop element current rest := by
              simp [widenLoop, h1, h2, h3]
            rw [hstep, ih current, List.filter_cons_of_pos (by simp [h3])]
            cases hfind : rest.find?
                (fun c => c.dataHook.isSome || looksLikeContainer c.className) with
            | some c => simp
            | none => simp [getLast?_getD_cons]
          · have hstep : widenLoop element best (current :: rest) =
                widenLoop element best rest := by
              simp [widenLoop, h1, h2, h3]
            rw [hstep, ih best, List.filter_cons_of_neg (by simp [h3])]

/-- C3 (amended): with the modifier key held, the preview target for a hovered
element is computed from the upward walk (strictly below `document.body`) as
follows — the nearest ancestor that carries the stable data-attribute or a
container-convention class wins outright and stops the walk; if no such
ancestor exists, the target is the farthest walked ancestor whose area is
strictly more than double the hovered element's (the area criterion updates
the candidate without stopping the walk); if none qualifies, the hovered
element itself. -/
theorem getTargetElement_widening_spec (e : DomElem) (ancestors : List DomElem) :
    getTargetElement (HitResult.pageElem e ancestors) true = some (specWiden e ancestors) := by
  have h := widenLoop_eq e ancestors e
  simp [getTargetElement, specWiden, h]

/-- C3 counterexample: the hovered element's direct parent (the nearest
ancestor) has at least double its area and so satisfies the claim's area
criterion, yet the chosen target is the farther data-hook ancestor — the
upward walk does not stop at the first ancestor satisfying a criterion. -/
theorem widening_not_first_criterion_counterexample :
    2 * hoveredElem.area ≤ largeParent.area ∧
    largeParent.dataHook = none ∧
    looksLikeContainer largeParent.className = false ∧
    getTargetElement (HitResult.pageElem hoveredElem [largeParent, hookedAncestor]) true
      = some hookedAncestor ∧
    hookedAncestor ≠ largeParent := by
  have hlc : looksLikeContainer largeParent.className = false := by decide
  have hhook1 : largeParent.dataHook.isSome = false := rfl
  have hhook2 : hookedAncestor.dataHook.isSome = true := rfl
  have harea : 2 * hoveredElem.area < largeParent.area := by
    norm_num [hoveredElem, largeParent]
  refine ⟨?_, rfl, hlc, ?_, ?_⟩
  · norm_num [hoveredElem, largeParent]
  · simp [getTargetElement, widenLoop, hlc, hhook1, hhook2, harea]
  · exact fun h => absurd (congrArg DomElem.tagName h) (by decide)

/-- C10: during an armed selection session, a click whose point resolves to
the session's own overlay, banner, or current highlight emits no message,
performs no teardown, and leaves the session armed. -/
theorem infrastructure_click_noop (eventId url : String) (st : SessionState)
    (modifierPressed : Bool) (h : st.isSelecting = true) :
    handleClick eventId url st HitResult.overlayHit modifierPressed = (st, []) ∧
    handleClick eventId url st HitResult.bannerHit modifierPressed = (st, []) ∧
    handleClick eventId url st HitResult.highlightHit modifierPressed = (st, []) ∧
    (handleClick eventId url st HitResult.overlayHit modifierPressed).1.isSelecting = true := by
  refine ⟨?_, ?_, ?_, ?_⟩ <;> simp [handleClick, getTargetElement, h]

/-- Witness for C10 at a concrete armed session. -/
theorem infrastructure_click_noop_witness :
    handleClick "button_click" "https://example.com/" { isSelecting := true }
      HitResult.overlayHit false = ({ isSelecting := true }, []) :=
  (infrastructure_click_noop "button_click" "https://example.com/"
    { isSelecting := true } false rfl).1
